import Mathlib

/-!
Shallow embedding of `onpolicy/algorithms/r_mappo/algorithm/r_actor_critic.py`
(classes `R_Actor` and `R_Critic`).

Modelling conventions:
* A 2-D tensor `(batch, cols)` is `List (List Int)`; a 3-D tensor is
  `List (List (List Int))`.  Entry values are opaque to the wrapper code under
  study, so `Int` entries suffice.
* `t[:, :n]` on a 2-D tensor is `sliceCols n`; `t.view(b, nu, -1)` splits each
  batch row into `nu` chunks (`view3`); `t.view(b, -1)` re-flattens each batch
  element (`view2`); `t.view(b, 1, -1)` is `viewB1`; `unsqueeze(1)` is
  `unsqueeze1`.
* `check(x).to(dtype, device)` is a dtype/device conversion and is modelled as
  the identity.
* External collaborators (`MLPBase`/CNN encoder, `RNNLayer.forward`,
  `RIMCell.__call__`, the two `ACTLayer`s, `PopArt`/`nn.Linear` value heads)
  are opaque functions supplied in an `Externals` bundle; the wrapper under
  study only routes tensors through them.
* A Python `AttributeError` (e.g. calling `self.act` when the attribute was
  never assigned) is modelled by `Option`/`none` results.
-/

set_option autoImplicit false

namespace RMappo

abbrev Tensor2 := List (List Int)

abbrev Tensor3 := List (List (List Int))

/-- Fuel-driven worker for `chunksOf`; the fuel is an upper bound on the list
length, so the recursion is structural (and hence kernel-evaluable). -/
def chunksOfGo (k : Nat) : Nat → List Int → List (List Int)
  | _, [] => []
  | 0, _ :: _ => []
  | fuel + 1, x :: rest =>
    if k = 0 then []
    else (x :: rest).take k :: chunksOfGo k fuel ((x :: rest).drop k)

/-- Split a flat row into consecutive chunks of size `k` (the last chunk may be
shorter when `k` does not divide the length; PyTorch `view` would reject that
case, and our theorems carry the divisibility hypotheses instead). -/
def chunksOf (k : Nat) (xs : List Int) : List (List Int) :=
  chunksOfGo k xs.length xs

/-- Model of `t[:, :n]` on a 2-D tensor: keep the first `n` columns of every row. -/
def sliceCols (n : Nat) (t : Tensor2) : Tensor2 :=
  t.map (List.take n)

/-- Model of `t.view(batch, nu, -1)`: reinterpret each row of length `L` as `nu` chunks
of length `L / nu`. -/
def view3 (nu : Nat) (t : Tensor2) : Tensor3 :=
  t.map (fun r => chunksOf (r.length / nu) r)

/-- Model of `t.view(batch, -1)`: flatten each batch element of a 3-D tensor. -/
def view2 (t : Tensor3) : Tensor2 :=
  t.map List.flatten

/-- Model of `t.view(batch, 1, -1)`: flatten each batch element and wrap it in a
singleton middle dimension. -/
def viewB1 (t : Tensor3) : Tensor3 :=
  t.map (fun r => [r.flatten])

/-- Model of `t.unsqueeze(1)`: add a singleton time dimension to a 2-D tensor. -/
def unsqueeze1 (t : Tensor2) : Tensor3 :=
  t.map (fun r => [r])

/-- The `rnn_cell` string argument of `RIMCell` (`'LSTM'` or `'GRU'`). -/
inductive RimFlavor where
  | lstm
  | gru
deriving DecidableEq

/-- The constructed `RIMCell` collaborator: its flavor tag plus its opaque
one-step behavior `(input, hs, cs) ↦ (hs', cs')`. -/
structure RIMCell where
  flavor : RimFlavor
  run : Tensor3 → Tensor3 → Tensor3 → Tensor3 × Tensor3

/-- Modelled from the spec: the `RIMCell` implementation
(`onpolicy.algorithms.utils.RIM`) is code of this repository that is not in
the source snapshot; only its construction calls are.  The spec states that
the Multi-Module cell "requires `hidden_size % num_units == 0`" and that a
violation is "fatal at construction", so its constructor is modelled as
failing exactly when `hidden_size % num_units ≠ 0`. -/
def RIMCell.make (flavor : RimFlavor) (hidden_size num_units : Nat)
    (run : Tensor3 → Tensor3 → Tensor3 → Tensor3 × Tensor3) :
    Except String RIMCell :=
  if hidden_size % num_units = 0 then
    Except.ok { flavor := flavor, run := run }
  else
    Except.error "hidden_size must be divisible by num_units"

/-- The `RNNLayer` collaborator (`onpolicy.algorithms.utils.rnn`): opaque
one-step behavior `(features, rnn_states, masks) ↦ (features', rnn_states')`. -/
structure RNNLayer where
  run : Tensor2 → Tensor2 → Tensor2 → Tensor2 × Tensor2

/-- What `self.rnn` holds after `__init__` (when it was assigned at all). -/
inductive RnnModule where
  | rim : RIMCell → RnnModule
  | simple : RNNLayer → RnnModule

/-- An `ACTLayer` collaborator (`mpe_act` or `multiwalker_act`): its sampling
entry point `(features, available_actions, deterministic) ↦ (actions,
log_probs)` and its `evaluate_actions` entry point `(features, action,
available_actions, active_masks) ↦ (log_probs, entropy)`. -/
structure ACTLayer where
  sample : Tensor2 → Option Tensor2 → Bool → Tensor2 × Tensor2
  evaluate_actions : Tensor2 → Tensor2 → Option Tensor2 → Option Tensor2 →
    Tensor2 × Tensor2

/-- The configuration bundle (`args`) fields read by `R_Actor.__init__` and
`R_Critic.__init__`. -/
structure Args where
  hidden_size : Nat
  recurrent_N : Nat
  num_units : Nat
  gain : Int
  env_name : String
  use_orthogonal : Bool
  use_popart : Bool
  use_policy_active_masks : Bool
  use_naive_recurrent_policy : Bool
  use_recurrent_policy : Bool
  use_rims_policy_LSTM : Bool
  use_rims_policy_GRU : Bool
  use_lstm_policy : Bool

/-- Behaviors of the external collaborator modules imported by the file. -/
structure Externals where
  base : Tensor2 → Tensor2
  rimRun : Tensor3 → Tensor3 → Tensor3 → Tensor3 × Tensor3
  rnnRun : Tensor2 → Tensor2 → Tensor2 → Tensor2 × Tensor2
  mpe_act : ACTLayer
  multiwalker_act : ACTLayer
  popart_v : Tensor2 → Tensor2
  linear_v : Tensor2 → Tensor2

/-- The recurrent-module construction block shared verbatim by
`R_Actor.__init__` (lines 61-67) and `R_Critic.__init__` (lines 234-240):

```python
if self._use_naive_recurrent_policy or self._use_recurrent_policy:
    if self._use_rims_policy_LSTM:
        self.rnn = RIMCell(..., 'LSTM', ...)
    elif self._use_rims_policy_GRU:
        self.rnn = RIMCell(..., 'GRU', ...)
    elif self._use_lstm_policy:
        self.rnn = RNNLayer(...)
```

No `else` branch exists: when no variant flag matches, `self.rnn` is simply
never assigned (`none`) and construction continues. -/
def buildRnn (a : Args) (ext : Externals) : Except String (Option RnnModule) :=
  if a.use_naive_recurrent_policy || a.use_recurrent_policy then
    if a.use_rims_policy_LSTM then
      (RIMCell.make RimFlavor.lstm a.hidden_size a.num_units ext.rimRun).map
        (fun c => some (RnnModule.rim c))
    else if a.use_rims_policy_GRU then
      (RIMCell.make RimFlavor.gru a.hidden_size a.num_units ext.rimRun).map
        (fun c => some (RnnModule.rim c))
    else if a.use_lstm_policy then
      Except.ok (some (RnnModule.simple { run := ext.rnnRun }))
    else
      Except.ok none
  else
    Except.ok none

/-- The constructed `R_Actor` module: the configuration fields it stores plus
the sub-modules assigned by `__init__` (`self.base`, `self.rnn`, `self.act`). -/
structure R_Actor where
  hidden_size : Nat
  num_units : Nat
  use_policy_active_masks : Bool
  use_naive_recurrent_policy : Bool
  use_recurrent_policy : Bool
  use_rims_policy_LSTM : Bool
  use_rims_policy_GRU : Bool
  use_lstm_policy : Bool
  base : Tensor2 → Tensor2
  rnn : Option RnnModule
  act : Option ACTLayer

/-- Embedding of `R_Actor.__init__` (lines 22-74): store the flags, build the recurrent
module, and assign `self.act` only when `env_name` matches one of the two
recognized strings (lines 69-72; there is no `else`, so any other `env_name`
leaves `self.act` unset). -/
def R_Actor.make (a : Args) (ext : Externals) : Except String R_Actor :=
  (buildRnn a ext).map (fun rnn =>
    { hidden_size := a.hidden_size
      num_units := a.num_units
      use_policy_active_masks := a.use_policy_active_masks
      use_naive_recurrent_policy := a.use_naive_recurrent_policy
      use_recurrent_policy := a.use_recurrent_policy
      use_rims_policy_LSTM := a.use_rims_policy_LSTM
      use_rims_policy_GRU := a.use_rims_policy_GRU
      use_lstm_policy := a.use_lstm_policy
      base := ext.base
      rnn := rnn
      act :=
        if a.env_name = "MPE-simple.spread" then some ext.mpe_act
        else if a.env_name = "SISL-multiwalker" then some ext.multiwalker_act
        else none })

/-- Lines 113-116 of the RIM branch (identically 165-168 and 280-283):

```python
hidden = rnn_states[:, :self.hidden_size], rnn_states[:, :self.hidden_size]
hidden = list(hidden)
hidden[0] = hidden[0].view(hidden[0].size(0), self._num_units, -1)
hidden[1] = hidden[0].view(hidden[1].size(0), self._num_units, -1)
```

Note that line 116 reads `hidden[0]` (already reshaped) on the right-hand
side, so the initial second slice is discarded and the "cell" sub-state is a
reshape of the "hidden" sub-state's data. -/
def rimPack (hidden_size num_units : Nat) (rnn_states : Tensor2) :
    Tensor3 × Tensor3 :=
  let sliced := sliceCols hidden_size rnn_states
  let h0 := view3 num_units sliced
  let h1 := view3 num_units (view2 h0)
  (h0, h1)

/-- The whole RIM branch body (lines 113-122): pack the state, unsqueeze the
features, run the cell, flatten the first output back into features and the
second into a `(batch, 1, -1)` state. -/
def rimStep (cell : RIMCell) (hidden_size num_units : Nat)
    (features rnn_states : Tensor2) : Tensor2 × Tensor3 :=
  let packed := rimPack hidden_size num_units rnn_states
  let out := cell.run (unsqueeze1 features) packed.1 packed.2
  (view2 out.1, viewB1 out.2)

/-- The recurrent dispatch block shared verbatim by `R_Actor.forward`
(lines 109-124), `R_Actor.evaluate_actions` (lines 161-176) and
`R_Critic.forward` (lines 276-291).  The outer guard requires a recurrent
policy; the inner `if/elif` picks the RIM path when either RIM flag is set,
the `RNNLayer` path when only `use_lstm_policy` is set, and otherwise leaves
both the features and the state untouched.  Dispatching to a path whose
module was never assigned is a Python `AttributeError` (`none`). -/
def recurrentStep (naive rec rimsL rimsG lstmF : Bool)
    (hidden_size num_units : Nat) (rnn : Option RnnModule)
    (features rnn_states masks : Tensor2) :
    Option (Tensor2 × (Tensor2 ⊕ Tensor3)) :=
  if naive || rec then
    if rimsL || rimsG then
      match rnn with
      | some (RnnModule.rim cell) =>
        let r := rimStep cell hidden_size num_units features rnn_states
        some (r.1, Sum.inr r.2)
      | _ => none
    else if lstmF then
      match rnn with
      | some (RnnModule.simple layer) =>
        let r := layer.run features rnn_states masks
        some (r.1, Sum.inl r.2)
      | _ => none
    else
      some (features, Sum.inl rnn_states)
  else
    some (features, Sum.inl rnn_states)

/-- Embedding of `R_Actor.forward` (lines 81-127): encode, run the recurrent dispatch, and
sample through `self.act`.  Reaching an unset `self.act` or an unset
`self.rnn` is an `AttributeError` (`none`). -/
def R_Actor.forward (m : R_Actor) (obs rnn_states masks : Tensor2)
    (available_actions : Option Tensor2) (deterministic : Bool) :
    Option (Tensor2 × Tensor2 × (Tensor2 ⊕ Tensor3)) :=
  let actor_features := m.base obs
  match recurrentStep m.use_naive_recurrent_policy m.use_recurrent_policy
      m.use_rims_policy_LSTM m.use_rims_policy_GRU m.use_lstm_policy
      m.hidden_size m.num_units m.rnn actor_features rnn_states masks with
  | none => none
  | some (features, st) =>
    match m.act with
    | none => none
    | some head =>
      let s := head.sample features available_actions deterministic
      some (s.1, s.2, st)

/-- Embedding of `R_Actor.evaluate_actions` (lines 129-184): encode, run the same recurrent
dispatch, then call `self.act.evaluate_actions` with
`active_masks if self._use_policy_active_masks else None` (lines 178-182). -/
def R_Actor.evaluate_actions (m : R_Actor)
    (obs rnn_states action masks : Tensor2)
    (available_actions active_masks : Option Tensor2) :
    Option (Tensor2 × Tensor2) :=
  let actor_features := m.base obs
  match recurrentStep m.use_naive_recurrent_policy m.use_recurrent_policy
      m.use_rims_policy_LSTM m.use_rims_policy_GRU m.use_lstm_policy
      m.hidden_size m.num_units m.rnn actor_features rnn_states masks with
  | none => none
  | some (features, _st) =>
    match m.act with
    | none => none
    | some head =>
      some (head.evaluate_actions features action available_actions
        (if m.use_policy_active_masks then active_masks else none))

/-- The constructed `R_Critic` module (lines 187-252). -/
structure R_Critic where
  hidden_size : Nat
  num_units : Nat
  use_naive_recurrent_policy : Bool
  use_recurrent_policy : Bool
  use_rims_policy_LSTM : Bool
  use_rims_policy_GRU : Bool
  use_lstm_policy : Bool
  use_popart : Bool
  base : Tensor2 → Tensor2
  rnn : Option RnnModule
  v_out : Tensor2 → Tensor2

/-- Embedding of `R_Critic.__init__` (lines 195-252): same recurrent-module block as the
actor, and a value head that is `PopArt` when `use_popart` is set and a
linear layer otherwise. -/
def R_Critic.make (a : Args) (ext : Externals) : Except String R_Critic :=
  (buildRnn a ext).map (fun rnn =>
    { hidden_size := a.hidden_size
      num_units := a.num_units
      use_naive_recurrent_policy := a.use_naive_recurrent_policy
      use_recurrent_policy := a.use_recurrent_policy
      use_rims_policy_LSTM := a.use_rims_policy_LSTM
      use_rims_policy_GRU := a.use_rims_policy_GRU
      use_lstm_policy := a.use_lstm_policy
      use_popart := a.use_popart
      base := ext.base
      rnn := rnn
      v_out := if a.use_popart then ext.popart_v else ext.linear_v })

/-- Embedding of `R_Critic.forward` (lines 260-295): encode, run the shared recurrent
dispatch, and project through `self.v_out`. -/
def R_Critic.forward (m : R_Critic) (obs rnn_states masks : Tensor2) :
    Option (Tensor2 × (Tensor2 ⊕ Tensor3)) :=
  let critic_features := m.base obs
  match recurrentStep m.use_naive_recurrent_policy m.use_recurrent_policy
      m.use_rims_policy_LSTM m.use_rims_policy_GRU m.use_lstm_policy
      m.hidden_size m.num_units m.rnn critic_features rnn_states masks with
  | none => none
  | some (features, st) => some (m.v_out features, st)

/-- Version of `R_Actor.forward` with the module state threaded explicitly.  The method
body (lines 81-127) contains no attribute assignment (`self.x = ...`), so the
explicit-state translation returns the module unchanged. -/
def R_Actor.forwardSt (m : R_Actor) (obs rnn_states masks : Tensor2)
    (available_actions : Option Tensor2) (deterministic : Bool) :
    Option (Tensor2 × Tensor2 × (Tensor2 ⊕ Tensor3)) × R_Actor :=
  (m.forward obs rnn_states masks available_actions deterministic, m)

/-- Version of `R_Actor.evaluate_actions` with the module state threaded explicitly; the
method body (lines 129-184) contains no attribute assignment. -/
def R_Actor.evaluateSt (m : R_Actor) (obs rnn_states action masks : Tensor2)
    (available_actions active_masks : Option Tensor2) :
    Option (Tensor2 × Tensor2) × R_Actor :=
  (m.evaluate_actions obs rnn_states action masks available_actions
    active_masks, m)

/-- Version of `R_Critic.forward` with the module state threaded explicitly; the method
body (lines 260-295) contains no attribute assignment. -/
def R_Critic.forwardSt (m : R_Critic) (obs rnn_states masks : Tensor2) :
    Option (Tensor2 × (Tensor2 ⊕ Tensor3)) × R_Critic :=
  (m.forward obs rnn_states masks, m)

/-- Written from the spec's words for claim C9: an `evaluate_actions` variant
whose action head always receives the supplied `active_masks`, to be compared
with the source's flag-gated behavior. -/
def R_Actor.evaluateAlways (m : R_Actor)
    (obs rnn_states action masks : Tensor2)
    (available_actions active_masks : Option Tensor2) :
    Option (Tensor2 × Tensor2) :=
  let actor_features := m.base obs
  match recurrentStep m.use_naive_recurrent_policy m.use_recurrent_policy
      m.use_rims_policy_LSTM m.use_rims_policy_GRU m.use_lstm_policy
      m.hidden_size m.num_units m.rnn actor_features rnn_states masks with
  | none => none
  | some (features, _st) =>
    match m.act with
    | none => none
    | some head =>
      some (head.evaluate_actions features action available_actions
        active_masks)

/-- The recurrent-unit variant a configuration selects. -/
inductive Variant where
  | rimLSTM
  | rimGRU
  | simple
  | off
deriving DecidableEq

/-- Written from the spec's words for claim C6: the claimed fixed priority
order Multi-Module-LSTM, then Multi-Module-GRU, then Simple-Recurrent; the
first matching variant wins, and no variant flag means no recurrent unit. -/
def priorityVariant (a : Args) : Variant :=
  if a.use_rims_policy_LSTM then Variant.rimLSTM
  else if a.use_rims_policy_GRU then Variant.rimGRU
  else if a.use_lstm_policy then Variant.simple
  else Variant.off

/-- The variant actually stored in a constructed `self.rnn`. -/
def variantOf : Option RnnModule → Variant
  | some (RnnModule.rim c) =>
    match c.flavor with
    | RimFlavor.lstm => Variant.rimLSTM
    | RimFlavor.gru => Variant.rimGRU
  | some (RnnModule.simple _) => Variant.simple
  | none => Variant.off

/-- Written from the spec's words for claim C6: a single dispatch on the
selected variant (instead of the source's nested flag tests), to be compared
with `recurrentStep`. -/
def stepOfVariant (v : Variant) (hidden_size num_units : Nat)
    (rnn : Option RnnModule) (features rnn_states masks : Tensor2) :
    Option (Tensor2 × (Tensor2 ⊕ Tensor3)) :=
  match v with
  | Variant.rimLSTM | Variant.rimGRU =>
    match rnn with
    | some (RnnModule.rim cell) =>
      let r := rimStep cell hidden_size num_units features rnn_states
      some (r.1, Sum.inr r.2)
    | _ => none
  | Variant.simple =>
    match rnn with
    | some (RnnModule.simple layer) =>
      let r := layer.run features rnn_states masks
      some (r.1, Sum.inl r.2)
    | _ => none
  | Variant.off => some (features, Sum.inl rnn_states)

/-! Concrete collaborator behaviors and configurations used to instantiate
the theorems on closed inputs. -/

/-- A concrete action head for closed instantiations. -/
def headD : ACTLayer :=
  { sample := fun f _aa _det => (f, f)
    evaluate_actions := fun f _a _aa am =>
      match am with
      | none => (f, f)
      | some w => (w, w) }

/-- A concrete bundle of collaborator behaviors for closed instantiations. -/
def extD : Externals :=
  { base := fun t => t
    rimRun := fun _x hs cs => (hs, cs)
    rnnRun := fun f s _m => (f, s)
    mpe_act := headD
    multiwalker_act := headD
    popart_v := fun t => t
    linear_v := fun t => t }

/-- A concrete configuration: recurrent policy with the RIM-LSTM variant,
`hidden_size = 4`, `num_units = 2`, recognized environment name. -/
def argsRim : Args :=
  { hidden_size := 4
    recurrent_N := 1
    num_units := 2
    gain := 1
    env_name := "MPE-simple.spread"
    use_orthogonal := true
    use_popart := false
    use_policy_active_masks := true
    use_naive_recurrent_policy := false
    use_recurrent_policy := true
    use_rims_policy_LSTM := true
    use_rims_policy_GRU := false
    use_lstm_policy := false }

/-- A concrete configuration: recurrent policy requested with
`hidden_size = 63`, `num_units = 4` and the RIM-LSTM variant selected. -/
def argsBad : Args :=
  { argsRim with hidden_size := 63, num_units := 4 }

/-- A concrete configuration: recurrent policy requested but zero variant
flags selected. -/
def argsZero : Args :=
  { argsRim with use_rims_policy_LSTM := false }

/-- A concrete configuration: recurrent policy requested with conflicting
variant flags (RIM-LSTM and Simple-Recurrent both set). -/
def argsConflict : Args :=
  { argsRim with use_lstm_policy := true }

/-- A concrete configuration: no recurrent policy at all. -/
def argsPlain : Args :=
  { argsRim with
    use_recurrent_policy := false
    use_rims_policy_LSTM := false }

/-- A concrete configuration: unrecognized environment name. -/
def argsNoEnv : Args :=
  { argsPlain with env_name := "Atari-pong" }

/-- A concrete constructed RIM cell for closed instantiations. -/
def cellD : RIMCell :=
  { flavor := RimFlavor.lstm, run := extD.rimRun }

/-- A concrete constructed actor with recurrence disabled. -/
def actorPlain : R_Actor :=
  { hidden_size := 4
    num_units := 2
    use_policy_active_masks := true
    use_naive_recurrent_policy := false
    use_recurrent_policy := false
    use_rims_policy_LSTM := false
    use_rims_policy_GRU := false
    use_lstm_policy := false
    base := extD.base
    rnn := none
    act := some headD }

/-- A concrete constructed actor with active-mask weighting disabled. -/
def actorPlainNoAM : R_Actor :=
  { actorPlain with use_policy_active_masks := false }

/-- A concrete constructed actor on the RIM-LSTM path. -/
def actorRim : R_Actor :=
  { actorPlain with
    use_recurrent_policy := true
    use_rims_policy_LSTM := true
    rnn := some (RnnModule.rim cellD) }

/-- A concrete constructed critic on the RIM-LSTM path. -/
def criticRim : R_Critic :=
  { hidden_size := 4
    num_units := 2
    use_naive_recurrent_policy := false
    use_recurrent_policy := true
    use_rims_policy_LSTM := true
    use_rims_policy_GRU := false
    use_lstm_policy := false
    use_popart := false
    base := extD.base
    rnn := some (RnnModule.rim cellD)
    v_out := extD.linear_v }

/-! Helper lemmas. -/

theorem chunksOfGo_fuel (k : Nat) :
    ∀ (f1 f2 : Nat) (xs : List Int), xs.length ≤ f1 → xs.length ≤ f2 →
      chunksOfGo k f1 xs = chunksOfGo k f2 xs := by
  intro f1
  induction f1 with
  | zero =>
    intro f2 xs h1 _h2
    have : xs = [] := List.length_eq_zero.mp (Nat.le_zero.mp h1)
    subst this
    cases f2 <;> simp [chunksOfGo]
  | succ g ih =>
    intro f2 xs h1 h2
    cases xs with
    | nil => cases f2 <;> simp [chunksOfGo]
    | cons x rest =>
      cases f2 with
      | zero =>
        simp only [List.length_cons] at h2
        omega
      | succ g2 =>
        by_cases hk : k = 0
        · simp [chunksOfGo, hk]
        · simp only [chunksOfGo, if_neg hk]
          congr 1
          apply ih
          · simp only [List.length_drop, List.length_cons]
            simp only [List.length_cons] at h1
            omega
          · simp only [List.length_drop, List.length_cons]
            simp only [List.length_cons] at h2
            omega

theorem chunksOf_cons (k : Nat) (hk : k ≠ 0) (x : Int) (rest : List Int) :
    chunksOf k (x :: rest)
      = (x :: rest).take k :: chunksOf k ((x :: rest).drop k) := by
  show chunksOfGo k (x :: rest).length (x :: rest) = _
  simp only [List.length_cons, chunksOfGo, if_neg hk]
  congr 1
  apply chunksOfGo_fuel
  · simp only [List.length_drop, List.length_cons]
    omega
  · exact Nat.le_refl _

theorem chunksOf_flatten (k : Nat) (hk : k ≠ 0) (xs : List Int) :
    (chunksOf k xs).flatten = xs := by
  generalize hn : xs.length = n
  induction n using Nat.strong_induction_on generalizing xs with
  | _ n ih =>
    cases xs with
    | nil => simp [chunksOf, chunksOfGo]
    | cons x rest =>
      have hlt : ((x :: rest).drop k).length < n := by
        subst hn
        simp only [List.length_drop, List.length_cons]
        omega
      rw [chunksOf_cons k hk, List.flatten_cons]
      rw [ih _ hlt _ rfl]
      exact List.take_append_drop k (x :: rest)

theorem chunksOf_length (k : Nat) (hk : k ≠ 0) (xs : List Int)
    (hdvd : k ∣ xs.length) : (chunksOf k xs).length = xs.length / k := by
  generalize hn : xs.length = n
  induction n using Nat.strong_induction_on generalizing xs with
  | _ n ih =>
    cases xs with
    | nil =>
      simp only [List.length_nil] at hn
      subst hn
      simp [chunksOf, chunksOfGo]
    | cons x rest =>
      subst hn
      have hkle : k ≤ (x :: rest).length := by
        rcases hdvd with ⟨c, hc⟩
        rcases c with _ | c
        · simp at hc
        · simp only [hc]
          calc k = k * 1 := by omega
          _ ≤ k * (c + 1) := by
            exact Nat.mul_le_mul_left k (by omega)
      have hlt : ((x :: rest).drop k).length < (x :: rest).length := by
        simp only [List.length_drop, List.length_cons]
        omega
      have hdvd' : k ∣ ((x :: rest).drop k).length := by
        simp only [List.length_drop]
        exact Nat.dvd_sub' hdvd (Nat.dvd_refl k)
      have step := chunksOf_cons k hk x rest
      rw [step, List.length_cons, ih _ hlt _ hdvd' rfl, List.length_drop,
        Nat.div_eq_sub_div (Nat.pos_of_ne_zero hk) hkle]

theorem mem_chunksOf_length (k : Nat) (hk : k ≠ 0) (xs : List Int)
    (hdvd : k ∣ xs.length) :
    ∀ c ∈ chunksOf k xs, c.length = k := by
  generalize hn : xs.length = n
  induction n using Nat.strong_induction_on generalizing xs with
  | _ n ih =>
    cases xs with
    | nil => simp [chunksOf, chunksOfGo]
    | cons x rest =>
      have hkle : k ≤ (x :: rest).length := by
        rcases hdvd with ⟨c, hc⟩
        rcases c with _ | c
        · simp at hc
        · simp only [hc]
          calc k = k * 1 := by omega
          _ ≤ k * (c + 1) := by
            exact Nat.mul_le_mul_left k (by omega)
      have hlt : ((x :: rest).drop k).length < n := by
        subst hn
        simp only [List.length_drop, List.length_cons]
        omega
      have hdvd' : k ∣ ((x :: rest).drop k).length := by
        simp only [List.length_drop]
        exact Nat.dvd_sub' hdvd (Nat.dvd_refl k)
      rw [chunksOf_cons k hk]
      intro c hc
      rcases List.mem_cons.mp hc with hfirst | hrest
      · subst hfirst
        simp only [List.length_take]
        omega
      · exact ih _ hlt _ hdvd' rfl c hrest

theorem except_map_ok {α β γ : Type} (f : α → β) (e : Except γ α) (b : β)
    (h : e.map f = Except.ok b) : ∃ x, e = Except.ok x ∧ b = f x := by
  cases e with
  | error err => simp [Except.map] at h
  | ok x =>
    refine ⟨x, rfl, ?_⟩
    simp only [Except.map] at h
    exact (Except.ok.inj h).symm

theorem except_map_ok_eq {α β γ : Type} (f : α → β) (x : α) :
    (Except.ok x : Except γ α).map f = Except.ok (f x) := rfl

/-- When the packed rows are long enough and `num_units` divides
`hidden_size`, the two sub-states built by `rimPack` are the same reshape of
the same slice, with shape `(batch, num_units, hidden_size / num_units)`. -/
theorem rimPack_spec (H nu : Nat) (hnu : nu ≠ 0) (hH : H ≠ 0) (hdvd : nu ∣ H)
    (s : Tensor2) (hlen : ∀ r ∈ s, H ≤ r.length) :
    (rimPack H nu s).2 = (rimPack H nu s).1 ∧
    (rimPack H nu s).1 = view3 nu (sliceCols H s) ∧
    (∀ r ∈ (rimPack H nu s).1,
      r.length = nu ∧ ∀ c ∈ r, c.length = H / nu) := by
  have hk : H / nu ≠ 0 := by
    have : nu ≤ H := Nat.le_of_dvd (Nat.pos_of_ne_zero hH) hdvd
    have := Nat.one_le_div_iff (Nat.pos_of_ne_zero hnu) |>.mpr this
    omega
  have hslice : ∀ r ∈ sliceCols H s, r.length = H := by
    intro r hr
    rcases List.mem_map.mp hr with ⟨r0, hr0, hr0eq⟩
    subst hr0eq
    simp only [List.length_take]
    exact Nat.min_eq_left (hlen r0 hr0)
  have hdvdk : ∀ r ∈ sliceCols H s, (H / nu) ∣ r.length := by
    intro r hr
    rw [hslice r hr]
    exact Nat.div_dvd_of_dvd hdvd
  constructor
  · show view3 nu (view2 (view3 nu (sliceCols H s))) = view3 nu (sliceCols H s)
    have : view2 (view3 nu (sliceCols H s)) = sliceCols H s := by
      show (List.map (fun r => chunksOf (r.length / nu) r)
        (sliceCols H s)).map List.flatten = sliceCols H s
      rw [List.map_map]
      apply List.map_congr_left ?_ |>.trans (List.map_id _)
      intro r hr
      show ((chunksOf (r.length / nu) r).flatten) = id r
      rw [hslice r hr]
      exact chunksOf_flatten (H / nu) hk r
    rw [this]
  refine ⟨rfl, ?_⟩
  intro r hr
  rcases List.mem_map.mp hr with ⟨r0, hr0, hr0eq⟩
  subst hr0eq
  constructor
  · rw [hslice r0 hr0, chunksOf_length (H / nu) hk r0 (hdvdk r0 hr0),
      hslice r0 hr0]
    exact Nat.div_div_self hdvd hH
  · intro c hc
    rw [hslice r0 hr0] at hc
    exact mem_chunksOf_length (H / nu) hk r0 (hdvdk r0 hr0) c hc

/-! Claim theorems. -/

/-- Claim C1: for every forward or evaluate call taking the Multi-Module
(RIM) recurrent path, the packed input hidden-state tensor is split into two
sub-states, each reshaped to `(batch, num_units, hidden_size / num_units)`,
and both the "hidden" and "cell" sub-states passed to the cell are derived
from the same slice `rnn_states[:, :hidden_size]` of the packed tensor: the
two sub-states handed to the cell are one and the same tensor `hc` below.
`recurrentStep` is the shared recurrent block of `R_Actor.forward`,
`R_Actor.evaluate_actions` and `R_Critic.forward`. -/
theorem rim_substates_from_same_slice
    (naive rec rimsL rimsG lstmF : Bool) (cell : RIMCell)
    (H nu : Nat) (f s masks : Tensor2)
    (hreq : (naive || rec) = true) (hrim : (rimsL || rimsG) = true)
    (hnu : nu ≠ 0) (hH : H ≠ 0) (hdvd : nu ∣ H)
    (hlen : ∀ r ∈ s, H ≤ r.length) :
    ∃ hc : Tensor3,
      hc = view3 nu (sliceCols H s) ∧
      recurrentStep naive rec rimsL rimsG lstmF H nu
          (some (RnnModule.rim cell)) f s masks
        = some (view2 (cell.run (unsqueeze1 f) hc hc).1,
            Sum.inr (viewB1 (cell.run (unsqueeze1 f) hc hc).2)) ∧
      (∀ r ∈ hc, r.length = nu ∧ ∀ c ∈ r, c.length = H / nu) := by
  obtain ⟨h21, h1v, hshape⟩ := rimPack_spec H nu hnu hH hdvd s hlen
  refine ⟨(rimPack H nu s).1, h1v, ?_, hshape⟩
  simp only [recurrentStep, hreq, hrim, if_true, rimStep]
  rw [h21]

/-- Closed instantiation of `rim_substates_from_same_slice`. -/
theorem rim_substates_from_same_slice_witness :
    (∀ r ∈ ([[1, 2, 3, 4, 5]] : Tensor2), 4 ≤ r.length) ∧
    ∃ hc : Tensor3,
      hc = view3 2 (sliceCols 4 [[1, 2, 3, 4, 5]]) ∧
      recurrentStep false true true false false 4 2
          (some (RnnModule.rim cellD)) [[7]] [[1, 2, 3, 4, 5]] [[1]]
        = some (view2 (cellD.run (unsqueeze1 [[7]]) hc hc).1,
            Sum.inr (viewB1 (cellD.run (unsqueeze1 [[7]]) hc hc).2)) ∧
      (∀ r ∈ hc, r.length = 2 ∧ ∀ c ∈ r, c.length = 4 / 2) :=
  ⟨by decide,
    rim_substates_from_same_slice false true true false false cellD 4 2
      [[7]] [[1, 2, 3, 4, 5]] [[1]] (by decide) (by decide) (by decide)
      (by decide) (by decide) (by decide)⟩

/-- Claim C2 (spec-modelled `RIMCell` constructor): for every configuration
that selects a Multi-Module cell variant with `hidden_size` not evenly
divisible by `num_units`, constructing `R_Actor` (or `R_Critic`) fails at
construction time. -/
theorem rim_divisibility_fatal_at_construction (a : Args) (ext : Externals)
    (hreq : (a.use_naive_recurrent_policy || a.use_recurrent_policy) = true)
    (hrim : (a.use_rims_policy_LSTM || a.use_rims_policy_GRU) = true)
    (hmod : a.hidden_size % a.num_units ≠ 0) :
    (∃ e, R_Actor.make a ext = Except.error e) ∧
    (∃ e, R_Critic.make a ext = Except.error e) := by
  have hb : ∃ e, buildRnn a ext = Except.error e := by
    cases hL : a.use_rims_policy_LSTM with
    | true =>
      refine ⟨"hidden_size must be divisible by num_units", ?_⟩
      simp [buildRnn, hreq, hL, RIMCell.make, hmod, Except.map]
    | false =>
      have hG : a.use_rims_policy_GRU = true := by
        rw [hL] at hrim
        simpa using hrim
      refine ⟨"hidden_size must be divisible by num_units", ?_⟩
      simp [buildRnn, hreq, hL, hG, RIMCell.make, hmod, Except.map]
  obtain ⟨e, hbe⟩ := hb
  exact ⟨⟨e, by simp [R_Actor.make, hbe, Except.map]⟩,
    ⟨e, by simp [R_Critic.make, hbe, Except.map]⟩⟩

/-- Closed instantiation of `rim_divisibility_fatal_at_construction` at
`hidden_size = 63`, `num_units = 4`. -/
theorem rim_divisibility_fatal_witness :
    argsBad.hidden_size = 63 ∧ argsBad.num_units = 4 ∧
    (∃ e, R_Actor.make argsBad extD = Except.error e) ∧
    (∃ e, R_Critic.make argsBad extD = Except.error e) :=
  ⟨rfl, rfl,
    rim_divisibility_fatal_at_construction argsBad extD (by decide)
      (by decide) (by decide)⟩

/-- Claim C5: when no recurrent policy is configured, `R_Actor.forward`
returns the input hidden state unchanged (identity pass-through; dtype/device
conversion is modelled as the identity) and the encoder embedding reaches the
action head unchanged by the recurrent stage. -/
theorem disabled_recurrence_identity (m : R_Actor) (head : ACTLayer)
    (hnaive : m.use_naive_recurrent_policy = false)
    (hrec : m.use_recurrent_policy = false)
    (hact : m.act = some head)
    (obs s masks : Tensor2) (aa : Option Tensor2) (det : Bool) :
    m.forward obs s masks aa det
      = some ((head.sample (m.base obs) aa det).1,
          (head.sample (m.base obs) aa det).2, Sum.inl s) := by
  simp [R_Actor.forward, recurrentStep, hnaive, hrec, hact]

/-- Closed instantiation of `disabled_recurrence_identity`. -/
theorem disabled_recurrence_identity_witness :
    actorPlain.forward [[1]] [[2, 3]] [[1]] none false
      = some ((headD.sample (actorPlain.base [[1]]) none false).1,
          (headD.sample (actorPlain.base [[1]]) none false).2,
          Sum.inl [[2, 3]]) :=
  disabled_recurrence_identity actorPlain headD rfl rfl rfl
    [[1]] [[2, 3]] [[1]] none false

/-- Claim C3 counterexample: `argsZero` requests a recurrent policy with zero
variant flags selected, and `argsConflict` requests one with conflicting
variant flags; in both cases construction of `R_Actor` and `R_Critic`
succeeds instead of failing fatally. -/
theorem invalid_recurrent_config_counterexample :
    (∃ m, R_Actor.make argsZero extD = Except.ok m) ∧
    (∃ m, R_Critic.make argsZero extD = Except.ok m) ∧
    (∃ m, R_Actor.make argsConflict extD = Except.ok m) ∧
    (∃ m, R_Critic.make argsConflict extD = Except.ok m) :=
  ⟨⟨_, rfl⟩, ⟨_, rfl⟩, ⟨_, rfl⟩, ⟨_, rfl⟩⟩

/-- Claim C3 amended: when a recurrent policy is requested but the variant
flags select zero variants, construction of both `R_Actor` and `R_Critic`
succeeds with `self.rnn` left unset and forward silently behaving as the
no-recurrence pass-through; when conflicting variants are selected (more
than one variant flag set — every conflict selects a RIM variant first, so
the RIM divisibility constraint is assumed), construction of both networks
also succeeds, the stored recurrent module being the first matching variant
in the priority order Multi-Module-LSTM, then Multi-Module-GRU, then
Simple-Recurrent. -/
theorem invalid_recurrent_config_silently_accepted (a : Args)
    (ext : Externals)
    (hreq : (a.use_naive_recurrent_policy || a.use_recurrent_policy)
      = true) :
    ((a.use_rims_policy_LSTM = false ∧ a.use_rims_policy_GRU = false ∧
        a.use_lstm_policy = false) →
      (∃ m, R_Actor.make a ext = Except.ok m ∧ m.rnn = none ∧
        ∀ obs s masks aa det head, m.act = some head →
          m.forward obs s masks aa det
            = some ((head.sample (m.base obs) aa det).1,
                (head.sample (m.base obs) aa det).2, Sum.inl s)) ∧
      (∃ mc, R_Critic.make a ext = Except.ok mc ∧ mc.rnn = none ∧
        ∀ obs s masks,
          mc.forward obs s masks
            = some (mc.v_out (mc.base obs), Sum.inl s))) ∧
    (((a.use_rims_policy_LSTM && a.use_rims_policy_GRU) ||
        (a.use_rims_policy_LSTM && a.use_lstm_policy) ||
        (a.use_rims_policy_GRU && a.use_lstm_policy)) = true →
      a.hidden_size % a.num_units = 0 →
      (∃ m, R_Actor.make a ext = Except.ok m ∧
        variantOf m.rnn = priorityVariant a) ∧
      (∃ mc, R_Critic.make a ext = Except.ok mc ∧
        variantOf mc.rnn = priorityVariant a)) := by
  constructor
  · rintro ⟨hL, hG, hS⟩
    have hb : buildRnn a ext = Except.ok none := by
      simp [buildRnn, hreq, hL, hG, hS]
    constructor
    · refine ⟨{
        hidden_size := a.hidden_size
        num_units := a.num_units
        use_policy_active_masks := a.use_policy_active_masks
        use_naive_recurrent_policy := a.use_naive_recurrent_policy
        use_recurrent_policy := a.use_recurrent_policy
        use_rims_policy_LSTM := a.use_rims_policy_LSTM
        use_rims_policy_GRU := a.use_rims_policy_GRU
        use_lstm_policy := a.use_lstm_policy
        base := ext.base
        rnn := none
        act := if a.env_name = "MPE-simple.spread" then some ext.mpe_act
          else if a.env_name = "SISL-multiwalker" then
            some ext.multiwalker_act
          else none }, ?_, rfl, ?_⟩
      · simp only [R_Actor.make, hb, except_map_ok_eq]
      intro obs s masks aa det head hact
      simp only [R_Actor.forward, recurrentStep, hreq, hL, hG, hS,
        Bool.or_self, Bool.false_or, if_true, if_false, Bool.or_false] at *
      simp [hact]
    · refine ⟨{
        hidden_size := a.hidden_size
        num_units := a.num_units
        use_naive_recurrent_policy := a.use_naive_recurrent_policy
        use_recurrent_policy := a.use_recurrent_policy
        use_rims_policy_LSTM := a.use_rims_policy_LSTM
        use_rims_policy_GRU := a.use_rims_policy_GRU
        use_lstm_policy := a.use_lstm_policy
        use_popart := a.use_popart
        base := ext.base
        rnn := none
        v_out := if a.use_popart then ext.popart_v
          else ext.linear_v }, ?_, rfl, ?_⟩
      · simp only [R_Critic.make, hb, except_map_ok_eq]
      intro obs s masks
      simp only [R_Critic.forward, recurrentStep, hreq, hL, hG, hS,
        Bool.or_self, Bool.false_or, if_true, if_false, Bool.or_false]
      simp
  · intro hconf hmod
    have hvb : ∃ v, buildRnn a ext = Except.ok v ∧
        variantOf v = priorityVariant a := by
      cases hL : a.use_rims_policy_LSTM with
      | true =>
        refine ⟨some (RnnModule.rim
          { flavor := RimFlavor.lstm, run := ext.rimRun }), ?_, ?_⟩
        · simp [buildRnn, hreq, hL, RIMCell.make, hmod, except_map_ok_eq]
        · simp [variantOf, priorityVariant, hL]
      | false =>
        have hG : a.use_rims_policy_GRU = true := by
          rw [hL] at hconf
          simp at hconf
          exact hconf.1
        refine ⟨some (RnnModule.rim
          { flavor := RimFlavor.gru, run := ext.rimRun }), ?_, ?_⟩
        · simp [buildRnn, hreq, hL, hG, RIMCell.make, hmod, except_map_ok_eq]
        · simp [variantOf, priorityVariant, hL, hG]
    obtain ⟨v, hbv, hvar⟩ := hvb
    constructor
    · refine ⟨{
        hidden_size := a.hidden_size
        num_units := a.num_units
        use_policy_active_masks := a.use_policy_active_masks
        use_naive_recurrent_policy := a.use_naive_recurrent_policy
        use_recurrent_policy := a.use_recurrent_policy
        use_rims_policy_LSTM := a.use_rims_policy_LSTM
        use_rims_policy_GRU := a.use_rims_policy_GRU
        use_lstm_policy := a.use_lstm_policy
        base := ext.base
        rnn := v
        act := if a.env_name = "MPE-simple.spread" then some ext.mpe_act
          else if a.env_name = "SISL-multiwalker" then
            some ext.multiwalker_act
          else none }, ?_, hvar⟩
      simp only [R_Actor.make, hbv, except_map_ok_eq]
    · refine ⟨{
        hidden_size := a.hidden_size
        num_units := a.num_units
        use_naive_recurrent_policy := a.use_naive_recurrent_policy
        use_recurrent_policy := a.use_recurrent_policy
        use_rims_policy_LSTM := a.use_rims_policy_LSTM
        use_rims_policy_GRU := a.use_rims_policy_GRU
        use_lstm_policy := a.use_lstm_policy
        use_popart := a.use_popart
        base := ext.base
        rnn := v
        v_out := if a.use_popart then ext.popart_v
          else ext.linear_v }, ?_, hvar⟩
      simp only [R_Critic.make, hbv, except_map_ok_eq]

/-- Closed instantiation of `invalid_recurrent_config_silently_accepted` at
`argsZero` (zero variants) and `argsConflict` (conflicting variants,
RIM-LSTM and Simple-Recurrent both set). -/
theorem invalid_recurrent_config_silently_accepted_witness :
    ((∃ m, R_Actor.make argsZero extD = Except.ok m ∧ m.rnn = none ∧
        ∀ obs s masks aa det head, m.act = some head →
          m.forward obs s masks aa det
            = some ((head.sample (m.base obs) aa det).1,
                (head.sample (m.base obs) aa det).2, Sum.inl s)) ∧
      (∃ mc, R_Critic.make argsZero extD = Except.ok mc ∧ mc.rnn = none ∧
        ∀ obs s masks,
          mc.forward obs s masks
            = some (mc.v_out (mc.base obs), Sum.inl s))) ∧
    ((∃ m, R_Actor.make argsConflict extD = Except.ok m ∧
        variantOf m.rnn = priorityVariant argsConflict) ∧
      (∃ mc, R_Critic.make argsConflict extD = Except.ok mc ∧
        variantOf mc.rnn = priorityVariant argsConflict)) :=
  ⟨(invalid_recurrent_config_silently_accepted argsZero extD
      (by decide)).1 ⟨rfl, rfl, rfl⟩,
   (invalid_recurrent_config_silently_accepted argsConflict extD
      (by decide)).2 (by decide) (by decide)⟩

/-- Claim C4: on the Multi-Module (RIM) recurrent path the wrapper performs
no reset-mask zeroing: two forward calls that differ only in the `masks`
argument produce the same embedding and the same new hidden state, for the
actor and for the critic. -/
theorem rim_path_ignores_masks (m : R_Actor) (mc : R_Critic)
    (hreq : (m.use_naive_recurrent_policy || m.use_recurrent_policy) = true)
    (hrim : (m.use_rims_policy_LSTM || m.use_rims_policy_GRU) = true)
    (hreqc : (mc.use_naive_recurrent_policy || mc.use_recurrent_policy)
      = true)
    (hrimc : (mc.use_rims_policy_LSTM || mc.use_rims_policy_GRU) = true)
    (obs s masks1 masks2 : Tensor2) (aa : Option Tensor2) (det : Bool) :
    m.forward obs s masks1 aa det = m.forward obs s masks2 aa det ∧
    mc.forward obs s masks1 = mc.forward obs s masks2 := by
  have hstep : ∀ (naive rec rimsL rimsG lstmF : Bool) (H nu : Nat)
      (rnn : Option RnnModule) (f : Tensor2),
      (naive || rec) = true → (rimsL || rimsG) = true →
      recurrentStep naive rec rimsL rimsG lstmF H nu rnn f s masks1
        = recurrentStep naive rec rimsL rimsG lstmF H nu rnn f s masks2 := by
    intro naive rec rimsL rimsG lstmF H nu rnn f h1 h2
    simp only [recurrentStep, h1, h2, if_true]
  constructor
  · simp only [R_Actor.forward]
    rw [hstep _ _ _ _ _ _ _ _ _ hreq hrim]
  · simp only [R_Critic.forward]
    rw [hstep _ _ _ _ _ _ _ _ _ hreqc hrimc]

/-- Closed instantiation of `rim_path_ignores_masks` with an all-ones and an
all-zeros reset mask. -/
theorem rim_path_ignores_masks_witness :
    actorRim.forward [[1]] [[1, 2, 3, 4]] [[1]] none false
      = actorRim.forward [[1]] [[1, 2, 3, 4]] [[0]] none false ∧
    criticRim.forward [[1]] [[1, 2, 3, 4]] [[1]]
      = criticRim.forward [[1]] [[1, 2, 3, 4]] [[0]] :=
  rim_path_ignores_masks actorRim criticRim (by decide) (by decide)
    (by decide) (by decide) [[1]] [[1, 2, 3, 4]] [[1]] [[0]] none false

/-- Claim C6: when a recurrent policy is requested (and the RIM divisibility
constraint holds so that construction succeeds), dispatch follows the fixed
priority order Multi-Module-LSTM, then Multi-Module-GRU, then
Simple-Recurrent, first match winning: the module stored in `self.rnn` at
construction realizes `priorityVariant`, the constructed module keeps the
configuration's dispatch fields, and the shared forward/evaluate dispatch
block `recurrentStep` agrees with a single dispatch on `priorityVariant`. -/
theorem variant_dispatch_priority (a : Args) (ext : Externals) (m : R_Actor)
    (hreq : (a.use_naive_recurrent_policy || a.use_recurrent_policy) = true)
    (hmod : a.hidden_size % a.num_units = 0)
    (hmk : R_Actor.make a ext = Except.ok m) :
    variantOf m.rnn = priorityVariant a ∧
    m.use_naive_recurrent_policy = a.use_naive_recurrent_policy ∧
    m.use_recurrent_policy = a.use_recurrent_policy ∧
    m.use_rims_policy_LSTM = a.use_rims_policy_LSTM ∧
    m.use_rims_policy_GRU = a.use_rims_policy_GRU ∧
    m.use_lstm_policy = a.use_lstm_policy ∧
    m.hidden_size = a.hidden_size ∧
    m.num_units = a.num_units ∧
    ∀ f s masks,
      recurrentStep a.use_naive_recurrent_policy a.use_recurrent_policy
          a.use_rims_policy_LSTM a.use_rims_policy_GRU a.use_lstm_policy
          a.hidden_size a.num_units m.rnn f s masks
        = stepOfVariant (priorityVariant a) a.hidden_size a.num_units m.rnn
            f s masks := by
  obtain ⟨rnn, hb, hm⟩ := except_map_ok _ _ _ hmk
  subst hm
  refine ⟨?_, rfl, rfl, rfl, rfl, rfl, rfl, rfl, ?_⟩
  · cases hL : a.use_rims_policy_LSTM with
    | true =>
      have : rnn = some (RnnModule.rim
          { flavor := RimFlavor.lstm, run := ext.rimRun }) := by
        simp [buildRnn, hreq, hL, RIMCell.make, hmod, except_map_ok_eq]
          at hb
        first
        | exact hb
        | exact hb.symm
      subst this
      simp [variantOf, priorityVariant, hL]
    | false =>
      cases hG : a.use_rims_policy_GRU with
      | true =>
        have : rnn = some (RnnModule.rim
            { flavor := RimFlavor.gru, run := ext.rimRun }) := by
          simp [buildRnn, hreq, hL, hG, RIMCell.make, hmod,
            except_map_ok_eq] at hb
          first
          | exact hb
          | exact hb.symm
        subst this
        simp [variantOf, priorityVariant, hL, hG]
      | false =>
        cases hS : a.use_lstm_policy with
        | true =>
          have : rnn = some (RnnModule.simple { run := ext.rnnRun }) := by
            simp [buildRnn, hreq, hL, hG, hS, except_map_ok_eq] at hb
            first
            | exact hb
            | exact hb.symm
          subst this
          simp [variantOf, priorityVariant, hL, hG, hS]
        | false =>
          have : rnn = none := by
            simp [buildRnn, hreq, hL, hG, hS, except_map_ok_eq] at hb
            first
            | exact hb
            | exact hb.symm
          subst this
          simp [variantOf, priorityVariant, hL, hG, hS]
  · intro f s masks
    cases hL : a.use_rims_policy_LSTM with
    | true =>
      simp [recurrentStep, stepOfVariant, priorityVariant, hreq, hL]
    | false =>
      cases hG : a.use_rims_policy_GRU with
      | true =>
        simp [recurrentStep, stepOfVariant, priorityVariant, hreq, hL, hG]
      | false =>
        cases hS : a.use_lstm_policy with
        | true =>
          simp [recurrentStep, stepOfVariant, priorityVariant, hreq, hL, hG,
            hS]
        | false =>
          simp [recurrentStep, stepOfVariant, priorityVariant, hreq, hL, hG,
            hS]

/-- Closed instantiation of `variant_dispatch_priority`: `argsRim` sets the
RIM-LSTM flag and construction stores the RIM-LSTM module. -/
theorem variant_dispatch_priority_witness :
    (argsRim.use_naive_recurrent_policy || argsRim.use_recurrent_policy)
      = true ∧
    argsRim.hidden_size % argsRim.num_units = 0 ∧
    R_Actor.make argsRim extD = Except.ok actorRim ∧
    variantOf actorRim.rnn = priorityVariant argsRim :=
  ⟨by decide, by decide, rfl,
    (variant_dispatch_priority argsRim extD actorRim (by decide) (by decide)
      rfl).1⟩

/-- Claim C7: the action head is constructed only when `env_name` exactly
matches one of the two recognized strings; for every other `env_name` the
head attribute is left unset, construction nevertheless succeeds, and any
subsequent `forward` or `evaluate_actions` call, which reaches the action
head, fails with an attribute error (`none`).  The hypothesis only rules out
the unrelated RIM divisibility failure. -/
theorem action_head_env_name_gate (a : Args) (ext : Externals)
    (hmod : a.hidden_size % a.num_units = 0) :
    ∃ m, R_Actor.make a ext = Except.ok m ∧
      (a.env_name = "MPE-simple.spread" → m.act = some ext.mpe_act) ∧
      (a.env_name = "SISL-multiwalker" → m.act = some ext.multiwalker_act) ∧
      (a.env_name ≠ "MPE-simple.spread" → a.env_name ≠ "SISL-multiwalker" →
        m.act = none ∧
        (∀ obs s masks aa det, m.forward obs s masks aa det = none) ∧
        (∀ obs s act masks aa am,
          m.evaluate_actions obs s act masks aa am = none)) := by
  have hb : ∃ r, buildRnn a ext = Except.ok r := by
    cases h1 : (a.use_naive_recurrent_policy || a.use_recurrent_policy) <;>
      cases hL : a.use_rims_policy_LSTM <;>
      cases hG : a.use_rims_policy_GRU <;>
      cases hS : a.use_lstm_policy <;>
      simp [buildRnn, h1, hL, hG, hS, RIMCell.make, hmod, except_map_ok_eq]
  obtain ⟨r, hbr⟩ := hb
  refine ⟨{
    hidden_size := a.hidden_size
    num_units := a.num_units
    use_policy_active_masks := a.use_policy_active_masks
    use_naive_recurrent_policy := a.use_naive_recurrent_policy
    use_recurrent_policy := a.use_recurrent_policy
    use_rims_policy_LSTM := a.use_rims_policy_LSTM
    use_rims_policy_GRU := a.use_rims_policy_GRU
    use_lstm_policy := a.use_lstm_policy
    base := ext.base
    rnn := r
    act := if a.env_name = "MPE-simple.spread" then some ext.mpe_act
      else if a.env_name = "SISL-multiwalker" then some ext.multiwalker_act
      else none }, ?_, ?_, ?_, ?_⟩
  · simp only [R_Actor.make, hbr, except_map_ok_eq]
  · intro h
    simp [h]
  · intro h
    by_cases h2 : a.env_name = "MPE-simple.spread"
    · rw [h] at h2
      exact absurd h2 (by decide)
    · simp [h2, h]
  · intro h1 h2
    have hactnone : (if a.env_name = "MPE-simple.spread" then
        some ext.mpe_act
        else if a.env_name = "SISL-multiwalker" then
        some ext.multiwalker_act else none) = none := by
      simp [h1, h2]
    refine ⟨hactnone, ?_, ?_⟩
    · intro obs s masks aa det
      cases hstep : recurrentStep a.use_naive_recurrent_policy
          a.use_recurrent_policy a.use_rims_policy_LSTM
          a.use_rims_policy_GRU a.use_lstm_policy a.hidden_size
          a.num_units r (ext.base obs) s masks with
      | none => simp [R_Actor.forward, hstep]
      | some p => simp [R_Actor.forward, hstep, hactnone]
    · intro obs s act masks aa am
      cases hstep : recurrentStep a.use_naive_recurrent_policy
          a.use_recurrent_policy a.use_rims_policy_LSTM
          a.use_rims_policy_GRU a.use_lstm_policy a.hidden_size
          a.num_units r (ext.base obs) s masks with
      | none => simp [R_Actor.evaluate_actions, hstep]
      | some p => simp [R_Actor.evaluate_actions, hstep, hactnone]

/-- Closed instantiation of `action_head_env_name_gate` at the unrecognized
environment name of `argsNoEnv`. -/
theorem action_head_env_name_gate_witness :
    argsNoEnv.env_name = "Atari-pong" ∧
    ∃ m, R_Actor.make argsNoEnv extD = Except.ok m ∧
      (argsNoEnv.env_name = "MPE-simple.spread" →
        m.act = some extD.mpe_act) ∧
      (argsNoEnv.env_name = "SISL-multiwalker" →
        m.act = some extD.multiwalker_act) ∧
      (argsNoEnv.env_name ≠ "MPE-simple.spread" →
        argsNoEnv.env_name ≠ "SISL-multiwalker" →
        m.act = none ∧
        (∀ obs s masks aa det, m.forward obs s masks aa det = none) ∧
        (∀ obs s act masks aa am,
          m.evaluate_actions obs s act masks aa am = none)) :=
  ⟨rfl, action_head_env_name_gate argsNoEnv extD (by decide)⟩

/-- Claim C8: the networks never persist state across calls: the explicit
state-threaded translations of `forward` and `evaluate_actions` (whose
method bodies contain no attribute assignment) return the module unchanged,
and a second call on the returned module with identical inputs produces an
identical output and identical new hidden state. -/
theorem forward_stateless (m : R_Actor) (mc : R_Critic)
    (obs s masks action : Tensor2) (aa am : Option Tensor2) (det : Bool) :
    (m.forwardSt obs s masks aa det).2 = m ∧
    ((m.forwardSt obs s masks aa det).2.forwardSt obs s masks aa det).1
      = (m.forwardSt obs s masks aa det).1 ∧
    (m.evaluateSt obs s action masks aa am).2 = m ∧
    ((m.evaluateSt obs s action masks aa am).2.evaluateSt obs s action masks
      aa am).1 = (m.evaluateSt obs s action masks aa am).1 ∧
    (mc.forwardSt obs s masks).2 = mc ∧
    ((mc.forwardSt obs s masks).2.forwardSt obs s masks).1
      = (mc.forwardSt obs s masks).1 :=
  ⟨rfl, rfl, rfl, rfl, rfl, rfl⟩

/-- Claim C9: `R_Actor.evaluate_actions` hands the supplied `active_masks`
to the action head's evaluate operation iff `use_policy_active_masks` is
true; when the flag is false the head receives `None` even if `active_masks`
was supplied.  `evaluateAlways` is the variant whose head always receives
the supplied masks. -/
theorem active_masks_flag_gate (m : R_Actor)
    (obs s action masks : Tensor2) (aa am : Option Tensor2) :
    (m.use_policy_active_masks = true →
      m.evaluate_actions obs s action masks aa am
        = m.evaluateAlways obs s action masks aa am) ∧
    (m.use_policy_active_masks = false →
      m.evaluate_actions obs s action masks aa am
        = m.evaluateAlways obs s action masks aa none) := by
  constructor <;> intro h <;>
    simp [R_Actor.evaluate_actions, R_Actor.evaluateAlways, h]

/-- Closed instantiation of `active_masks_flag_gate` with a supplied
active-mask tensor under both flag values. -/
theorem active_masks_flag_gate_witness :
    actorPlain.use_policy_active_masks = true ∧
    actorPlainNoAM.use_policy_active_masks = false ∧
    actorPlain.evaluate_actions [[1]] [[2]] [[3]] [[1]] none (some [[5]])
      = actorPlain.evaluateAlways [[1]] [[2]] [[3]] [[1]] none
          (some [[5]]) ∧
    actorPlainNoAM.evaluate_actions [[1]] [[2]] [[3]] [[1]] none
        (some [[5]])
      = actorPlainNoAM.evaluateAlways [[1]] [[2]] [[3]] [[1]] none none :=
  ⟨rfl, rfl,
    (active_masks_flag_gate actorPlain [[1]] [[2]] [[3]] [[1]] none
      (some [[5]])).1 rfl,
    (active_masks_flag_gate actorPlainNoAM [[1]] [[2]] [[3]] [[1]] none
      (some [[5]])).2 rfl⟩

/-- Claim C10: on the Multi-Module (RIM) path only the first `hidden_size`
columns of the packed input hidden state influence the outputs (columns
beyond `hidden_size`, if present, are discarded), and the returned new
hidden state is the cell sub-state reshaped to `(batch, 1, hidden_size)`
(the middle dimension is the singleton introduced by `view(b, 1, -1)`
regardless of the input hidden state's trailing shape; the row width
`hidden_size` uses the hypothesis that the external cell returns per-batch
sub-states of total width `hidden_size`). -/
theorem rim_state_column_locality
    (naive rec rimsL rimsG lstmF : Bool) (cell : RIMCell)
    (H nu : Nat) (f s1 s2 masks : Tensor2)
    (hreq : (naive || rec) = true) (hrim : (rimsL || rimsG) = true)
    (hagree : sliceCols H s1 = sliceCols H s2)
    (hcell : ∀ r ∈ (cell.run (unsqueeze1 f) (rimPack H nu s1).1
        (rimPack H nu s1).2).2, r.flatten.length = H) :
    recurrentStep naive rec rimsL rimsG lstmF H nu
        (some (RnnModule.rim cell)) f s1 masks
      = recurrentStep naive rec rimsL rimsG lstmF H nu
          (some (RnnModule.rim cell)) f s2 masks ∧
    ∃ st : Tensor3,
      recurrentStep naive rec rimsL rimsG lstmF H nu
          (some (RnnModule.rim cell)) f s1 masks
        = some (view2 (cell.run (unsqueeze1 f) (rimPack H nu s1).1
            (rimPack H nu s1).2).1, Sum.inr st) ∧
      st = viewB1 (cell.run (unsqueeze1 f) (rimPack H nu s1).1
            (rimPack H nu s1).2).2 ∧
      ∀ r ∈ st, r.length = 1 ∧ ∀ u ∈ r, u.length = H := by
  have hpack : rimPack H nu s1 = rimPack H nu s2 := by
    simp [rimPack, hagree]
  constructor
  · simp only [recurrentStep, hreq, hrim, if_true, rimStep, hpack]
  · refine ⟨viewB1 (cell.run (unsqueeze1 f) (rimPack H nu s1).1
      (rimPack H nu s1).2).2,
      by simp only [recurrentStep, hreq, hrim, if_true, rimStep], rfl, ?_⟩
    intro r hr
    rcases List.mem_map.mp hr with ⟨r0, hr0, hr0eq⟩
    subst hr0eq
    refine ⟨rfl, ?_⟩
    intro u hu
    rcases List.mem_singleton.mp hu with rfl
    exact hcell r0 hr0

/-- Closed instantiation of `rim_state_column_locality`: two packed states
agreeing on their first four columns but differing beyond them. -/
theorem rim_state_column_locality_witness :
    sliceCols 4 [[1, 2, 3, 4, 9]] = sliceCols 4 [[1, 2, 3, 4, 7]] ∧
    recurrentStep false true true false false 4 2
        (some (RnnModule.rim cellD)) [[7]] [[1, 2, 3, 4, 9]] [[1]]
      = recurrentStep false true true false false 4 2
          (some (RnnModule.rim cellD)) [[7]] [[1, 2, 3, 4, 7]] [[1]] :=
  ⟨by decide,
    (rim_state_column_locality false true true false false cellD 4 2
      [[7]] [[1, 2, 3, 4, 9]] [[1, 2, 3, 4, 7]] [[1]] (by decide)
      (by decide) (by decide) (by decide)).1⟩

end RMappo
